import Mathlib

/-!
Verification of the DrinkQuick back-end order and offline-sync core.

Shallow embedding of:
  * `src/models/Order.model.js` (order schema, pre-save hook, validation,
    uniqueness constraints);
  * `src/controllers/auth.controller.js`: `createOrder`, `getOrderById`,
    `updateOrder`, `syncBulkOrders`, `resolveSyncConflicts`.

Modelling conventions:
  * JS numbers are modelled as `Int` (money amounts, quantities);
  * timestamps are `Int` milliseconds; an incoming `updatedAt` that is missing
    or unparseable (`new Date(x)` = Invalid Date, i.e. NaN) is `none`, and any
    JS `>` comparison against NaN is `false`;
  * the Mongo collection is a `List Order`; `findOne` is the first match in
    list order; the unique indexes on `orderNumber`, `receiptNumber` and
    (sparse) `localId` make an insert of a duplicate fail;
  * Mongoose `timestamps: true` stamps `createdAt`/`updatedAt` at insert and
    re-stamps `updatedAt` on every `save()`/`findByIdAndUpdate`;
  * Mongoose validation (`validateBeforeSave`) is an unshifted built-in
    pre-save hook: it runs BEFORE any user `pre('save')` hook, so a required
    field that only the user hook generates fails validation;
  * `findByIdAndUpdate` with a plain object `$set`s exactly the keys present in
    that object and does NOT run the schema's pre-save hook;
  * randomness (order/receipt number suffixes), the clock and Mongo ids are
    inputs, packaged in an environment record;
  * the mailer is a boolean oracle: order creation's email step never fails the
    order (its try/catch swallows errors).
-/

/-- One entry of `orderItemSchema`: a frozen snapshot of a purchased drink. -/
structure OrderItem where
  drink : Nat
  drinkName : String
  quantity : Int
  pricePerUnit : Int
  totalPrice : Int
  deriving Repr, DecidableEq

/-- A stored document of `orderSchema` (src/models/Order.model.js).
`localId` and `lastSynced` are optional fields (absent = `none`);
`orderNumber`/`receiptNumber` are `""` while unset, matching the JS falsy test
`!this.orderNumber` in the pre-save hook. -/
structure Order where
  id : Nat
  orderNumber : String
  user : Nat
  customerName : String
  customerEmail : String
  items : List OrderItem
  totalAmount : Int
  amountPaid : Int
  balance : Int
  paymentMethod : String
  status : String
  notes : String
  receiptPrinted : Bool
  receiptNumber : String
  discount : Int
  tax : Int
  subtotal : Int
  localId : Option String
  lastSynced : Option Int
  syncStatus : String
  emailSent : Bool
  createdAt : Int
  updatedAt : Int
  deriving Repr, DecidableEq

/-- A catalog document of `drinkSchema` (src/models/Drink.model.js),
restricted to the fields `createOrder` reads. -/
structure Drink where
  id : Nat
  name : String
  price : Int
  deriving Repr, DecidableEq

/-- The `orderSchema.pre('save')` hook: generate `orderNumber` and
`receiptNumber` when unset, then recompute `subtotal` from the item snapshots
and `balance = amountPaid - (subtotal - discount + tax)`.
`genOrd`/`genRec` stand for the `ORD-...`/`REC-...` strings the hook would
draw from the clock and `Math.random()`. -/
def preSaveHook (genOrd genRec : String) (o : Order) : Order :=
  let o1 := if o.orderNumber = "" then { o with orderNumber := genOrd } else o
  let o2 := if o1.receiptNumber = "" then { o1 with receiptNumber := genRec } else o1
  let st := o2.items.foldl (fun s it => s + it.totalPrice) 0
  { o2 with subtotal := st, balance := o2.amountPaid - (st - o2.discount + o2.tax) }

/-- Schema validation of one order item: `quantity ≥ 1`, `pricePerUnit ≥ 0`,
`totalPrice ≥ 0`. -/
def validOrderItem (it : OrderItem) : Bool :=
  1 ≤ it.quantity && 0 ≤ it.pricePerUnit && 0 ≤ it.totalPrice

/-- Schema validation of `orderSchema` (required / min / enum / maxlength
constraints that `save()` enforces). `orderNumber` is `required: true`, and
Mongoose's required validator on a String rejects the empty string, so a
document whose `orderNumber` is still unset (modelled `""`) fails validation.
(`receiptNumber` is unique but not required; `totalAmount`, `amountPaid` and
`balance` are required, which the callers handle by failing when the payload
lacks them.) -/
def validOrder (o : Order) : Bool :=
  o.orderNumber ≠ ""
  && o.items.all validOrderItem
  && 0 ≤ o.totalAmount
  && 0 ≤ o.amountPaid
  && 0 ≤ o.discount
  && 0 ≤ o.tax
  && 0 ≤ o.subtotal
  && (o.paymentMethod = "cash" || o.paymentMethod = "card"
      || o.paymentMethod = "mobile" || o.paymentMethod = "other")
  && (o.status = "pending" || o.status = "completed"
      || o.status = "cancelled" || o.status = "refunded")
  && (o.syncStatus = "synced" || o.syncStatus = "pending" || o.syncStatus = "conflict")
  && o.notes.length ≤ 500

/-- Insert into the collection, enforcing the unique indexes on
`orderNumber`, `receiptNumber` and the sparse unique index on `localId`.
A duplicate key makes the write throw. -/
def insertOrder (store : List Order) (o : Order) : Except String (List Order) :=
  if store.any (fun e => e.orderNumber = o.orderNumber) then
    .error "E11000 duplicate key: orderNumber"
  else if store.any (fun e => e.receiptNumber = o.receiptNumber) then
    .error "E11000 duplicate key: receiptNumber"
  else if o.localId.isSome && store.any (fun e => e.localId = o.localId) then
    .error "E11000 duplicate key: localId"
  else
    .ok (store ++ [o])

/-- `Order.create(doc)`: validate FIRST (Mongoose's `validateBeforeSave` is a
built-in pre-save hook unshifted ahead of all user hooks, so validation sees
the document before the number-generating hook runs), then run the user
pre-save hook, then insert. In particular a document without an `orderNumber`
throws the required-path ValidationError and never reaches the hook or the
store. -/
def orderCreate (genOrd genRec : String) (store : List Order) (o : Order) :
    Except String (Order × List Order) :=
  if validOrder o then
    match insertOrder store (preSaveHook genOrd genRec o) with
    | .ok store' => .ok (preSaveHook genOrd genRec o, store')
    | .error e => .error e
  else
    .error "ValidationError"

/-- Replace the document with the given `_id` (the write of
`findByIdAndUpdate`). -/
def replaceById (store : List Order) (oid : Nat) (o' : Order) : List Order :=
  store.map (fun o => if o.id = oid then o' else o)

/-! ## createOrder (POST /api/orders) -/

/-- One entry of `req.body.items`: `{drink, quantity}`. -/
structure CreateOrderItem where
  drink : Nat
  quantity : Int
  deriving Repr, DecidableEq

/-- The request body of `POST /api/orders`. `totalAmount` is carried so we can
state that the controller ignores any client-sent total. -/
structure CreateOrderReq where
  items : List CreateOrderItem
  amountPaid : Int
  customerName : Option String
  customerEmail : Option String
  paymentMethod : Option String
  notes : Option String
  discount : Option Int
  tax : Option Int
  totalAmount : Option Int
  deriving Repr, DecidableEq

/-- Per-request environment: the clock, the authenticated user
(`req.user`), the random order/receipt numbers the pre-save hook would draw,
a fresh Mongo `_id`, and whether the mailer call succeeds. -/
structure CreateEnv where
  now : Int
  userId : Nat
  username : String
  userEmail : String
  userRole : String
  genOrd : String
  genRec : String
  freshId : Nat
  mailerOk : Bool
  deriving Repr, DecidableEq

/-- Outcome of `createOrder`, tagged like the controller's response. -/
inductive CreateOrderResult where
  | notFound (drinkId : Nat)
  | insufficientPayment (required paid : Int)
  | created (order : Order)
  | serverError
  deriving Repr, DecidableEq

/-- HTTP status the controller attaches to each outcome. -/
def CreateOrderResult.httpStatus : CreateOrderResult → Nat
  | .notFound _ => 404
  | .insufficientPayment _ _ => 400
  | .created _ => 201
  | .serverError => 500

/-- The error message of the underpayment branch. -/
def insufficientPaymentMessage (required paid : Int) : String :=
  "Insufficient payment. Required: " ++ toString required ++ ", Paid: " ++ toString paid

/-- The item-validation loop of `createOrder`: resolve each drink by id
(`Drink.findById`), fail with the offending id when one is missing, otherwise
return the snapshot list and the accumulated sum of `drink.price * quantity`. -/
def resolveItems (catalog : List Drink) : List CreateOrderItem → Except Nat (List OrderItem × Int)
  | [] => .ok ([], 0)
  | it :: rest =>
    match catalog.find? (fun d => d.id = it.drink) with
    | none => .error it.drink
    | some d =>
      match resolveItems catalog rest with
      | .error e => .error e
      | .ok (snaps, total) =>
        .ok ({ drink := d.id, drinkName := d.name, quantity := it.quantity,
               pricePerUnit := d.price, totalPrice := d.price * it.quantity } :: snaps,
             d.price * it.quantity + total)

/-- `createOrder` (src/controllers/auth.controller.js, POST /api/orders):
resolve items against the catalog, apply discount/tax, reject underpayment,
persist via `Order.create` (pre-save hook + validation + unique indexes), then
best-effort email: when `customerEmail` is present and the mailer succeeds,
flag `emailSent` and `save()` again; a mailer failure is swallowed. Any throw
from `Order.create` hits the catch-all and returns a 500. Returns the response
outcome and the resulting collection. -/
def createOrder (env : CreateEnv) (catalog : List Drink) (store : List Order)
    (req : CreateOrderReq) : CreateOrderResult × List Order :=
  match resolveItems catalog req.items with
  | .error missing => (.notFound missing, store)
  | .ok (orderItems, totalAmount) =>
    if req.amountPaid < totalAmount - req.discount.getD 0 + req.tax.getD 0 then
      (.insufficientPayment (totalAmount - req.discount.getD 0 + req.tax.getD 0)
        req.amountPaid, store)
    else
      match orderCreate env.genOrd env.genRec store
        { id := env.freshId
          orderNumber := ""
          user := env.userId
          customerName := req.customerName.getD env.username
          customerEmail := req.customerEmail.getD env.userEmail
          items := orderItems
          totalAmount := totalAmount - req.discount.getD 0 + req.tax.getD 0
          amountPaid := req.amountPaid
          balance := req.amountPaid - (totalAmount - req.discount.getD 0 + req.tax.getD 0)
          paymentMethod := req.paymentMethod.getD "cash"
          status := "completed"
          notes := req.notes.getD ""
          receiptPrinted := false
          receiptNumber := ""
          discount := req.discount.getD 0
          tax := req.tax.getD 0
          subtotal := totalAmount
          localId := none
          lastSynced := none
          syncStatus := "synced"
          emailSent := false
          createdAt := env.now
          updatedAt := env.now } with
      | .error _ => (.serverError, store)
      | .ok (saved, store') =>
        if req.customerEmail.isSome && env.mailerOk then
          (.created (preSaveHook env.genOrd env.genRec { saved with emailSent := true }),
           replaceById store' saved.id
             (preSaveHook env.genOrd env.genRec { saved with emailSent := true }))
        else
          (.created saved, store')

/-! ## syncBulkOrders (POST /api/orders/sync/bulk) -/

/-- One record of `req.body.orders`. Every field is optional: `none` means the
key is absent from the JSON payload. `updatedAt` is the result of
`new Date(orderData.updatedAt)`: `none` when the field is missing or does not
parse (Invalid Date, NaN), `some t` for a valid timestamp. -/
structure SyncRecord where
  localId : Option String
  orderNumber : Option String
  updatedAt : Option Int
  customerName : Option String
  customerEmail : Option String
  items : Option (List OrderItem)
  totalAmount : Option Int
  amountPaid : Option Int
  balance : Option Int
  paymentMethod : Option String
  status : Option String
  notes : Option String
  receiptPrinted : Option Bool
  discount : Option Int
  tax : Option Int
  subtotal : Option Int
  syncStatus : Option String
  emailSent : Option Bool
  deriving Repr, DecidableEq

/-- The `Order.findOne({$or: [{localId}, {orderNumber}]})` predicate: the
record matches a stored order through its `localId` or its `orderNumber`
(a key absent from the payload matches nothing). -/
def matchesRecord (r : SyncRecord) (o : Order) : Bool :=
  (match r.localId with
   | some l => o.localId = some l
   | none => false)
  || (match r.orderNumber with
      | some n => o.orderNumber = n
      | none => false)

/-- The conflict test `existingOrder.updatedAt > new Date(orderData.updatedAt)`.
In JS, comparing against an Invalid Date (NaN) is always `false`. -/
def jsDateGt (a : Int) (b : Option Int) : Bool :=
  match b with
  | some t => t < a
  | none => false

/-- The spread `{...orderData}` turned into a `$set`: every key present in the
record overwrites the stored order's field; absent keys leave it unchanged.
(`updatedAt` is handled by the caller: Mongoose `timestamps` re-stamp it.) -/
def applyClientFields (r : SyncRecord) (o : Order) : Order :=
  { o with
    localId := r.localId.orElse (fun _ => o.localId)
    orderNumber := r.orderNumber.getD o.orderNumber
    customerName := r.customerName.getD o.customerName
    customerEmail := r.customerEmail.getD o.customerEmail
    items := r.items.getD o.items
    totalAmount := r.totalAmount.getD o.totalAmount
    amountPaid := r.amountPaid.getD o.amountPaid
    balance := r.balance.getD o.balance
    paymentMethod := r.paymentMethod.getD o.paymentMethod
    status := r.status.getD o.status
    notes := r.notes.getD o.notes
    receiptPrinted := r.receiptPrinted.getD o.receiptPrinted
    discount := r.discount.getD o.discount
    tax := r.tax.getD o.tax
    subtotal := r.subtotal.getD o.subtotal
    syncStatus := r.syncStatus.getD o.syncStatus
    emailSent := r.emailSent.getD o.emailSent }

/-- The UPDATED branch of `syncBulkOrders`:
`Order.findByIdAndUpdate(existing._id, {...orderData, user: req.user._id,
lastSynced: new Date(), syncStatus: 'synced'}, {new: true})`. No pre-save hook
runs, no validators run; Mongoose timestamps re-stamp `updatedAt := now`. -/
def syncUpdateApply (now : Int) (userId : Nat) (r : SyncRecord) (o : Order) : Order :=
  { applyClientFields r o with
    user := userId
    lastSynced := some now
    syncStatus := "synced"
    updatedAt := now }

/-- The CREATED branch of `syncBulkOrders`: build the document
`{...orderData, user, lastSynced, syncStatus: 'synced'}` for `Order.create`.
Schema defaults fill the absent keys; required fields (`totalAmount`,
`amountPaid`, `balance`) that are absent make validation throw — validation
runs before the pre-save hook, so the hook cannot fill `balance` (nor an
absent `orderNumber`, which `orderCreate`'s validation rejects) in time. -/
def syncCreate (now : Int) (userId : Nat) (genOrd genRec : String) (freshId : Nat)
    (store : List Order) (r : SyncRecord) : Except String (Order × List Order) :=
  match r.totalAmount, r.amountPaid, r.balance with
  | some ta, some ap, some b =>
    let doc : Order :=
      { id := freshId
        orderNumber := r.orderNumber.getD ""
        user := userId
        customerName := r.customerName.getD ""
        customerEmail := r.customerEmail.getD ""
        items := r.items.getD []
        totalAmount := ta
        amountPaid := ap
        balance := b
        paymentMethod := r.paymentMethod.getD "cash"
        status := r.status.getD "completed"
        notes := r.notes.getD ""
        receiptPrinted := r.receiptPrinted.getD false
        receiptNumber := ""
        discount := r.discount.getD 0
        tax := r.tax.getD 0
        subtotal := r.subtotal.getD 0
        localId := r.localId
        lastSynced := some now
        syncStatus := "synced"
        emailSent := r.emailSent.getD false
        createdAt := now
        updatedAt := now }
    orderCreate genOrd genRec store doc
  | _, _, _ => .error "ValidationError: required path missing"

/-- Per-record disposition, mirroring the entries `syncBulkOrders` pushes into
its four result arrays. -/
inductive SyncOutcome where
  | createdRec (localId : Option String) (serverId : Nat)
  | updatedRec (localId : Option String) (serverId : Nat)
  | conflictRec (localId : Option String) (serverId : Nat) (serverData : Order)
  | errorRec (localId : Option String) (message : String)
  deriving Repr, DecidableEq

/-- One iteration of the `for (const orderData of orders)` loop of
`syncBulkOrders`, including its per-record try/catch: look the record up by
`localId`/`orderNumber`; on a match, conflict when the server copy is strictly
newer, otherwise overwrite; on no match, create; a throw becomes an error
entry. Exactly one outcome per record. -/
def processSyncRecord (now : Int) (userId : Nat) (genOrd genRec : String) (freshId : Nat)
    (store : List Order) (r : SyncRecord) : SyncOutcome × List Order :=
  match store.find? (matchesRecord r) with
  | some existing =>
    if jsDateGt existing.updatedAt r.updatedAt then
      (.conflictRec r.localId existing.id existing, store)
    else
      let upd := syncUpdateApply now userId r existing
      (.updatedRec r.localId existing.id, replaceById store existing.id upd)
  | none =>
    match syncCreate now userId genOrd genRec freshId store r with
    | .ok (o, store') => (.createdRec r.localId o.id, store')
    | .error msg => (.errorRec r.localId msg, store)

/-- The four result buckets of `syncBulkOrders`. -/
structure SyncResults where
  created : List SyncOutcome
  updated : List SyncOutcome
  conflicts : List SyncOutcome
  errors : List SyncOutcome
  deriving Repr, DecidableEq

/-- Append one disposition to the bucket the controller pushes it into. -/
def SyncResults.push (rs : SyncResults) (out : SyncOutcome) : SyncResults :=
  match out with
  | .createdRec _ _ => { rs with created := rs.created ++ [out] }
  | .updatedRec _ _ => { rs with updated := rs.updated ++ [out] }
  | .conflictRec _ _ _ => { rs with conflicts := rs.conflicts ++ [out] }
  | .errorRec _ _ => { rs with errors := rs.errors ++ [out] }

/-- The whole `syncBulkOrders` loop over the batch. `gens k` supplies the
random order/receipt numbers and the fresh `_id` the k-th record would draw;
`k` indexes the batch position. -/
def syncBulkLoop (now : Int) (userId : Nat) (gens : Nat → String × String × Nat)
    (k : Nat) (store : List Order) (rs : SyncResults) :
    List SyncRecord → SyncResults × List Order
  | [] => (rs, store)
  | r :: rest =>
    let p := processSyncRecord now userId (gens k).1 (gens k).2.1 (gens k).2.2 store r
    syncBulkLoop now userId gens (k + 1) p.2 (rs.push p.1) rest

/-- `syncBulkOrders` on a batch, starting from empty buckets. -/
def syncBulkOrders (now : Int) (userId : Nat) (gens : Nat → String × String × Nat)
    (store : List Order) (batch : List SyncRecord) : SyncResults × List Order :=
  syncBulkLoop now userId gens 0 store ⟨[], [], [], []⟩ batch

/-! ## getOrderById (GET /api/orders/:id) and updateOrder (PUT /api/orders/:id) -/

/-- Outcome of `getOrderById`. -/
inductive GetOrderResult where
  | notFound
  | forbidden
  | ok (order : Order)
  deriving Repr, DecidableEq

/-- `getOrderById`: 404 when the id resolves to nothing; 403 when the caller
is neither the owning user nor an Administrator; otherwise the order. -/
def getOrderById (store : List Order) (userId : Nat) (userRole : String)
    (oid : Nat) : GetOrderResult :=
  match store.find? (fun o => o.id = oid) with
  | none => .notFound
  | some o =>
    if o.user ≠ userId && userRole ≠ "Administrator" then .forbidden
    else .ok o

/-- The request body of `PUT /api/orders/:id`. Besides the three keys the
controller's allowlist reads, it can carry arbitrary other order fields, which
must be ignored. -/
structure OrderPatch where
  status : Option String
  notes : Option String
  receiptPrinted : Option Bool
  items : Option (List OrderItem)
  totalAmount : Option Int
  amountPaid : Option Int
  balance : Option Int
  discount : Option Int
  tax : Option Int
  subtotal : Option Int
  orderNumber : Option String
  receiptNumber : Option String
  user : Option Nat
  localId : Option String
  lastSynced : Option Int
  syncStatus : Option String
  customerName : Option String
  customerEmail : Option String
  paymentMethod : Option String
  emailSent : Option Bool
  deriving Repr, DecidableEq

/-- Outcome of `updateOrder`. -/
inductive UpdateOrderResult where
  | notFound
  | forbidden
  | ok (order : Order)
  | serverError
  deriving Repr, DecidableEq

/-- The `runValidators: true` check on the `$set` paths of `updateOrder`:
`status` must stay in its enum and `notes` within 500 characters. -/
def validPatchFields (p : OrderPatch) : Bool :=
  (match p.status with
   | some s => s = "pending" || s = "completed" || s = "cancelled" || s = "refunded"
   | none => true)
  && (match p.notes with
      | some n => n.length ≤ 500
      | none => true)

/-- `updateOrder`: 404 when the id resolves to nothing; 403 when the caller is
neither the owner nor an Administrator; otherwise build `updates` from the
allowlist `['status', 'notes', 'receiptPrinted']` only and
`findByIdAndUpdate(id, {$set: updates}, {new: true, runValidators: true})`
(Mongoose timestamps re-stamp `updatedAt`; a validator failure throws to the
catch-all 500). -/
def updateOrder (now : Int) (store : List Order) (userId : Nat) (userRole : String)
    (oid : Nat) (p : OrderPatch) : UpdateOrderResult × List Order :=
  match store.find? (fun o => o.id = oid) with
  | none => (.notFound, store)
  | some o =>
    if o.user ≠ userId && userRole ≠ "Administrator" then (.forbidden, store)
    else if validPatchFields p then
      let o' := { o with
        status := p.status.getD o.status
        notes := p.notes.getD o.notes
        receiptPrinted := p.receiptPrinted.getD o.receiptPrinted
        updatedAt := now }
      (.ok o', replaceById store oid o')
    else
      (.serverError, store)

/-! ## resolveSyncConflicts (POST /api/orders/sync/resolve-conflicts) -/

/-- One entry of `req.body.resolutions`: `{orderId, resolution, data}`.
`data` has the same optional-field shape as a sync record. -/
structure ConflictResolution where
  orderId : Nat
  resolution : String
  data : SyncRecord
  deriving Repr, DecidableEq

/-- Per-resolution disposition, mirroring the `status` strings the controller
pushes. -/
inductive ResolveOutcome where
  | notFoundRes (orderId : Nat)
  | keptServer (orderId : Nat)
  | updatedWithClient (orderId : Nat)
  | merged (orderId : Nat)
  | noAction (orderId : Nat)
  deriving Repr, DecidableEq

/-- One iteration of the `resolveSyncConflicts` loop:
`Order.findOne({_id, user: req.user._id})` scopes the lookup to the caller's
own orders; `keep_server` is a no-op; `use_client` and `merge` both
`findByIdAndUpdate` with the keys of `data` plus
`syncStatus: 'synced', lastSynced: now, updatedAt: now` (a plain object and an
explicit `$set` are the same write), bypassing the pre-save hook; an
unrecognized resolution string matches no branch and pushes nothing. -/
def resolveOne (now : Int) (userId : Nat) (store : List Order)
    (res : ConflictResolution) : ResolveOutcome × List Order :=
  match store.find? (fun o => o.id = res.orderId && o.user = userId) with
  | none => (.notFoundRes res.orderId, store)
  | some o =>
    if res.resolution = "keep_server" then
      (.keptServer res.orderId, store)
    else if res.resolution = "use_client" then
      let o' := { applyClientFields res.data o with
        syncStatus := "synced", lastSynced := some now, updatedAt := now }
      (.updatedWithClient res.orderId, replaceById store res.orderId o')
    else if res.resolution = "merge" then
      let o' := { applyClientFields res.data o with
        syncStatus := "synced", lastSynced := some now, updatedAt := now }
      (.merged res.orderId, replaceById store res.orderId o')
    else
      (.noAction res.orderId, store)

/-! ## Derived notions used by the statements -/

/-- Sum of `pricePerUnit * quantity` over a list of item snapshots: the total
the spec says every persisted order must carry (before discount/tax). -/
def sumLineTotals (its : List OrderItem) : Int :=
  (its.map (fun i => i.pricePerUnit * i.quantity)).sum

/-- Size of the four result buckets together. -/
def SyncResults.size (rs : SyncResults) : Nat :=
  rs.created.length + rs.updated.length + rs.conflicts.length + rs.errors.length

/-! ## Concrete sample data (used by witnesses and counterexamples) -/

/-- A catalog drink: Beer at 800. -/
def drinkBeer : Drink := { id := 5, name := "Beer", price := 800 }

/-- A stored, already-synced order owned by user 1, last written at t=100. -/
def oA : Order :=
  { id := 1
    orderNumber := "ORD-20250101-1234"
    user := 1
    customerName := "walk-in"
    customerEmail := "w@x.io"
    items := [{ drink := 5, drinkName := "Beer", quantity := 2,
                pricePerUnit := 800, totalPrice := 1600 }]
    totalAmount := 1600
    amountPaid := 1600
    balance := 0
    paymentMethod := "cash"
    status := "completed"
    notes := ""
    receiptPrinted := false
    receiptNumber := "REC-77"
    discount := 0
    tax := 0
    subtotal := 1600
    localId := some "L1"
    lastSynced := some 50
    syncStatus := "synced"
    emailSent := false
    createdAt := 10
    updatedAt := 100 }

/-- A second stored order whose number will collide with a fresh generation. -/
def oB : Order :=
  { oA with id := 2, orderNumber := "ORD-20251012-4242",
            receiptNumber := "REC-78", localId := none }

/-- A sync record with every key absent from the payload. -/
def emptyRec : SyncRecord :=
  { localId := none, orderNumber := none, updatedAt := none, customerName := none,
    customerEmail := none, items := none, totalAmount := none, amountPaid := none,
    balance := none, paymentMethod := none, status := none, notes := none,
    receiptPrinted := none, discount := none, tax := none, subtotal := none,
    syncStatus := none, emailSent := none }

/-- Incoming record matching `oA` by localId, newer than the server copy,
carrying a forged `totalAmount`/`balance`. -/
def rForge : SyncRecord :=
  { emptyRec with localId := some "L1", updatedAt := some 200,
                  totalAmount := some 999, balance := some 777 }

/-- Incoming record matching `oA` by localId with an unparseable `updatedAt`. -/
def rNoStamp : SyncRecord :=
  { emptyRec with localId := some "L1", totalAmount := some 5 }

/-- A record with content identical to `oA` and `updatedAt` equal to the
server's. -/
def rDupEq : SyncRecord :=
  { localId := some "L1", orderNumber := some "ORD-20250101-1234",
    updatedAt := some 100, customerName := some "walk-in",
    customerEmail := some "w@x.io",
    items := some [{ drink := 5, drinkName := "Beer", quantity := 2,
                     pricePerUnit := 800, totalPrice := 1600 }],
    totalAmount := some 1600, amountPaid := some 1600, balance := some 0,
    paymentMethod := some "cash", status := some "completed", notes := some "",
    receiptPrinted := some false, discount := some 0, tax := some 0,
    subtotal := some 1600, syncStatus := some "synced", emailSent := some false }

/-- The same content with a strictly older `updatedAt`. -/
def rDupOld : SyncRecord := { rDupEq with updatedAt := some 99 }

/-- A record from a foreign caller matching `oA` by orderNumber. -/
def rTakeover : SyncRecord :=
  { emptyRec with orderNumber := some "ORD-20250101-1234", updatedAt := some 150 }

/-- Request environment: user 1 (role Staff), clock 400, generated numbers
`ORD-20251012-4242` / `REC-400-1`. -/
def envA : CreateEnv :=
  { now := 400, userId := 1, username := "kay", userEmail := "k@x.io",
    userRole := "Staff", genOrd := "ORD-20251012-4242", genRec := "REC-400-1",
    freshId := 7, mailerOk := true }

/-- A create request: 2 Beers, paid 1600, client lies about `totalAmount`. -/
def reqA : CreateOrderReq :=
  { items := [{ drink := 5, quantity := 2 }], amountPaid := 1600,
    customerName := none, customerEmail := none, paymentMethod := none,
    notes := none, discount := none, tax := none, totalAmount := some 1 }

/-- The same cart paid 1000 (underpayment: required 1600). -/
def reqUnderpay : CreateOrderReq := { reqA with amountPaid := 1000 }

/-- A patch that tries to change every field of an order. -/
def pFull : OrderPatch :=
  { status := some "cancelled", notes := some "tampered", receiptPrinted := some true,
    items := some [], totalAmount := some 1, amountPaid := some 1, balance := some 123,
    discount := some 9, tax := some 9, subtotal := some 9,
    orderNumber := some "ORD-X", receiptNumber := some "REC-X", user := some 42,
    localId := some "LX", lastSynced := some 1, syncStatus := some "pending",
    customerName := some "mallory", customerEmail := some "m@x.io",
    paymentMethod := some "card", emailSent := some true }

/-- A `use_client` resolution pushing the forged record onto order 1. -/
def resForge : ConflictResolution :=
  { orderId := 1, resolution := "use_client", data := rForge }

/-- A `use_client` resolution pushing `rDupEq` onto order 1. -/
def resDup : ConflictResolution :=
  { orderId := 1, resolution := "use_client", data := rDupEq }

/-- The order the create-order scenario expects `createOrder envA [drinkBeer]
[] reqA` to persist (totals computed server-side). The program in fact never
reaches this outcome: required-validation of `orderNumber` precedes the
generating hook, so creation fails — see the C2 theorem. -/
def cA : Order :=
  { id := 7
    orderNumber := "ORD-20251012-4242"
    user := 1
    customerName := "kay"
    customerEmail := "k@x.io"
    items := [{ drink := 5, drinkName := "Beer", quantity := 2,
                pricePerUnit := 800, totalPrice := 1600 }]
    totalAmount := 1600
    amountPaid := 1600
    balance := 0
    paymentMethod := "cash"
    status := "completed"
    notes := ""
    receiptPrinted := false
    receiptNumber := "REC-400-1"
    discount := 0
    tax := 0
    subtotal := 1600
    localId := none
    lastSynced := none
    syncStatus := "synced"
    emailSent := false
    createdAt := 400
    updatedAt := 400 }

/-- The order `syncCreate 300 1 "G1" "G2" 9 [] rDupEq` persists. -/
def cDup : Order :=
  { oA with id := 9, receiptNumber := "G2", lastSynced := some 300,
            createdAt := 300, updatedAt := 300 }

/-- What `updateOrder 500 [oA] 1 "Staff" 1 pFull` stores: only the allowlisted
fields (and the automatic `updatedAt` stamp) move. -/
def uA : Order :=
  { oA with status := "cancelled", notes := "tampered",
            receiptPrinted := true, updatedAt := 500 }

/-! ## Helper lemmas -/

theorem foldl_totalPrice (its : List OrderItem) (a : Int) :
    its.foldl (fun s it => s + it.totalPrice) a
      = a + (its.map (fun i => i.totalPrice)).sum := by
  induction its generalizing a with
  | nil => simp
  | cons i rest ih => simp [List.foldl, ih]; omega

theorem preSaveHook_spec (g1 g2 : String) (o : Order) :
    (preSaveHook g1 g2 o).totalAmount = o.totalAmount
    ∧ (preSaveHook g1 g2 o).items = o.items
    ∧ (preSaveHook g1 g2 o).amountPaid = o.amountPaid
    ∧ (preSaveHook g1 g2 o).discount = o.discount
    ∧ (preSaveHook g1 g2 o).tax = o.tax
    ∧ (preSaveHook g1 g2 o).user = o.user
    ∧ (preSaveHook g1 g2 o).subtotal = (o.items.map (fun i => i.totalPrice)).sum
    ∧ (preSaveHook g1 g2 o).balance
        = o.amountPaid - ((o.items.map (fun i => i.totalPrice)).sum - o.discount + o.tax)
    ∧ (o.orderNumber = "" → (preSaveHook g1 g2 o).orderNumber = g1) := by
  simp only [preSaveHook]
  split_ifs <;> simp_all [foldl_totalPrice]

theorem insertOrder_ok (store : List Order) (o : Order) (store₂ : List Order)
    (h : insertOrder store o = .ok store₂) : store₂ = store ++ [o] := by
  unfold insertOrder at h
  split_ifs at h
  all_goals simp_all

theorem orderCreate_ok (g1 g2 : String) (store : List Order) (doc saved : Order)
    (store₂ : List Order) (h : orderCreate g1 g2 store doc = .ok (saved, store₂)) :
    saved = preSaveHook g1 g2 doc ∧ store₂ = store ++ [saved] := by
  unfold orderCreate at h
  split at h
  · cases hins : insertOrder store (preSaveHook g1 g2 doc) with
    | ok s2 =>
      rw [hins] at h
      injection h with h'
      injection h' with ha hb
      subst ha; subst hb
      exact ⟨rfl, insertOrder_ok _ _ _ hins⟩
    | error e => rw [hins] at h; cases h
  · cases h

theorem resolveItems_spec (catalog : List Drink) :
    ∀ its snaps total, resolveItems catalog its = .ok (snaps, total) →
      total = sumLineTotals snaps
      ∧ ∀ i ∈ snaps, i.totalPrice = i.pricePerUnit * i.quantity
          ∧ ∃ d, catalog.find? (fun e => e.id = i.drink) = some d
              ∧ i.pricePerUnit = d.price := by
  intro its
  induction its with
  | nil =>
    intro snaps total h
    simp [resolveItems] at h
    obtain ⟨h1, h2⟩ := h
    subst h1; subst h2
    simp [sumLineTotals]
  | cons it rest ih =>
    intro snaps total h
    rw [resolveItems] at h
    cases hfind : catalog.find? (fun d => d.id = it.drink) with
    | none => rw [hfind] at h; cases h
    | some d =>
      rw [hfind] at h
      cases hres : resolveItems catalog rest with
      | error e => rw [hres] at h; cases h
      | ok pr =>
        obtain ⟨snaps0, total0⟩ := pr
        rw [hres] at h
        injection h with h'
        injection h' with hs ht
        obtain ⟨ihtot, ihmem⟩ := ih snaps0 total0 hres
        subst hs; subst ht
        constructor
        · simp [sumLineTotals, ihtot, sumLineTotals]
        · intro i hi
          rcases List.mem_cons.mp hi with hhead | htail
          · subst hhead
            refine ⟨rfl, d, ?_, rfl⟩
            have hd : d.id = it.drink := by
              have := List.find?_some hfind
              simpa using this
            simpa [hd] using hfind
          · exact ihmem i htail

theorem SyncResults.push_size (rs : SyncResults) (out : SyncOutcome) :
    (rs.push out).size = rs.size + 1 := by
  cases out <;> simp [SyncResults.push, SyncResults.size] <;> omega

theorem syncBulkLoop_size (now : Int) (uid : Nat) (gens : Nat → String × String × Nat) :
    ∀ batch k store rs,
      (syncBulkLoop now uid gens k store rs batch).fst.size
        = rs.size + batch.length := by
  intro batch
  induction batch with
  | nil => intro k store rs; simp [syncBulkLoop]
  | cons r rest ih =>
    intro k store rs
    rw [syncBulkLoop]
    simp only [ih, SyncResults.push_size, List.length_cons]
    omega

/-! ## Claim theorems -/

/-- C5: bulk-sync processing is total — every input record of a batch lands in
exactly one of the four result buckets, so
`|created| + |updated| + |conflicts| + |errors| = |batch|`; a throw while
processing a record becomes that record's error entry (the `errors` bucket of
the same partition) and the loop continues with the remaining records. -/
theorem syncBatchPartitionTotal (now : Int) (uid : Nat)
    (gens : Nat → String × String × Nat) (store : List Order)
    (batch : List SyncRecord) :
    (syncBulkOrders now uid gens store batch).fst.created.length
      + (syncBulkOrders now uid gens store batch).fst.updated.length
      + (syncBulkOrders now uid gens store batch).fst.conflicts.length
      + (syncBulkOrders now uid gens store batch).fst.errors.length
      = batch.length := by
  have h := syncBulkLoop_size now uid gens batch 0 store ⟨[], [], [], []⟩
  simpa [syncBulkOrders, SyncResults.size] using h

/-- C1: for a bulk-sync record matching an existing order and carrying a
parseable `updatedAt` t: when the server copy is strictly newer the outcome is
CONFLICT carrying the server's current record and the store is unchanged;
otherwise the outcome is UPDATED and the matched order is overwritten with the
incoming payload, re-stamped `syncStatus = "synced"` with a fresh
`lastSynced`. -/
theorem syncConflictRule (now : Int) (uid : Nat) (g1 g2 : String) (fid : Nat)
    (store : List Order) (r : SyncRecord) (existing : Order) (t : Int)
    (hfind : store.find? (matchesRecord r) = some existing)
    (ht : r.updatedAt = some t) :
    (t < existing.updatedAt →
      processSyncRecord now uid g1 g2 fid store r
        = (.conflictRec r.localId existing.id existing, store))
    ∧ (existing.updatedAt ≤ t →
        (processSyncRecord now uid g1 g2 fid store r).fst
          = .updatedRec r.localId existing.id
        ∧ ∃ u, (processSyncRecord now uid g1 g2 fid store r).snd
              = replaceById store existing.id u
            ∧ u.syncStatus = "synced"
            ∧ u.lastSynced = some now
            ∧ u.user = uid
            ∧ u.totalAmount = r.totalAmount.getD existing.totalAmount
            ∧ u.items = r.items.getD existing.items
            ∧ u.amountPaid = r.amountPaid.getD existing.amountPaid
            ∧ u.status = r.status.getD existing.status
            ∧ u.balance = r.balance.getD existing.balance) := by
  constructor
  · intro hlt
    simp [processSyncRecord, hfind, jsDateGt, ht, hlt]
  · intro hle
    have hgt : jsDateGt existing.updatedAt r.updatedAt = false := by
      simp only [jsDateGt, ht, decide_eq_false_iff_not]
      omega
    refine ⟨?_, syncUpdateApply now uid r existing, ?_, ?_, ?_, ?_, ?_, ?_, ?_, ?_, ?_⟩ <;>
      simp [processSyncRecord, hfind, hgt, syncUpdateApply, applyClientFields]

/-- C1 witness: record `rForge` (updatedAt 150 after bumping) against `oA`
(updatedAt 100): concrete instantiation of the conflict rule. -/
theorem syncConflictRule_witness :
    (150 < oA.updatedAt →
      processSyncRecord 300 1 "G1" "G2" 9 [oA] { rForge with updatedAt := some 150 }
        = (.conflictRec (some "L1") oA.id oA, [oA]))
    ∧ (oA.updatedAt ≤ 150 →
        (processSyncRecord 300 1 "G1" "G2" 9 [oA]
            { rForge with updatedAt := some 150 }).fst
          = .updatedRec (some "L1") oA.id
        ∧ ∃ u, (processSyncRecord 300 1 "G1" "G2" 9 [oA]
              { rForge with updatedAt := some 150 }).snd
              = replaceById [oA] oA.id u
            ∧ u.syncStatus = "synced"
            ∧ u.lastSynced = some 300
            ∧ u.user = 1
            ∧ u.totalAmount = ({ rForge with updatedAt := some 150 } :
                SyncRecord).totalAmount.getD oA.totalAmount
            ∧ u.items = ({ rForge with updatedAt := some 150 } :
                SyncRecord).items.getD oA.items
            ∧ u.amountPaid = ({ rForge with updatedAt := some 150 } :
                SyncRecord).amountPaid.getD oA.amountPaid
            ∧ u.status = ({ rForge with updatedAt := some 150 } :
                SyncRecord).status.getD oA.status
            ∧ u.balance = ({ rForge with updatedAt := some 150 } :
                SyncRecord).balance.getD oA.balance) :=
  syncConflictRule 300 1 "G1" "G2" 9 [oA] { rForge with updatedAt := some 150 } oA 150
    (by decide) (by decide)

/-- C10 (implicit): a bulk-sync record that matches an existing order but has
a missing or unparseable `updatedAt` (`new Date(x)` = NaN) always takes the
UPDATED branch — the comparison `existing.updatedAt > NaN` is false — so the
server copy is overwritten no matter how much newer it is, and the CONFLICT
outcome is unreachable for such records. -/
theorem syncInvalidTimestampOverwrites (now : Int) (uid : Nat) (g1 g2 : String)
    (fid : Nat) (store : List Order) (r : SyncRecord) (existing : Order)
    (hfind : store.find? (matchesRecord r) = some existing)
    (ht : r.updatedAt = none) :
    processSyncRecord now uid g1 g2 fid store r
      = (.updatedRec r.localId existing.id,
         replaceById store existing.id (syncUpdateApply now uid r existing))
    ∧ ∀ lid sid sd, (processSyncRecord now uid g1 g2 fid store r).fst
        ≠ .conflictRec lid sid sd := by
  have hgt : jsDateGt existing.updatedAt r.updatedAt = false := by
    simp [jsDateGt, ht]
  constructor
  · simp [processSyncRecord, hfind, hgt]
  · intro lid sid sd
    simp [processSyncRecord, hfind, hgt]

/-- C10 witness: `rNoStamp` (no `updatedAt`) against a copy of `oA` stamped
far in the future: still UPDATED, never CONFLICT. -/
theorem syncInvalidTimestampOverwrites_witness :
    processSyncRecord 300 1 "G1" "G2" 9 [{ oA with updatedAt := 999999 }] rNoStamp
      = (.updatedRec (some "L1") oA.id,
         replaceById [{ oA with updatedAt := 999999 }] oA.id
           (syncUpdateApply 300 1 rNoStamp { oA with updatedAt := 999999 }))
    ∧ ∀ lid sid sd,
        (processSyncRecord 300 1 "G1" "G2" 9 [{ oA with updatedAt := 999999 }]
            rNoStamp).fst ≠ .conflictRec lid sid sd :=
  syncInvalidTimestampOverwrites 300 1 "G1" "G2" 9 [{ oA with updatedAt := 999999 }]
    rNoStamp { oA with updatedAt := 999999 } (by decide) rfl

theorem sum_totalPrice_eq_sumLineTotals (its : List OrderItem)
    (h : ∀ i ∈ its, i.totalPrice = i.pricePerUnit * i.quantity) :
    (its.map (fun i => i.totalPrice)).sum = sumLineTotals its := by
  induction its with
  | nil => simp [sumLineTotals]
  | cons i rest ih =>
    have hi := h i (List.mem_cons_self i rest)
    have hrest := ih (fun j hj => h j (List.mem_cons_of_mem i hj))
    simp only [sumLineTotals, List.map_cons, List.sum_cons] at *
    rw [hi, hrest]

theorem orderCreate_fails_on_blank_number (g1 g2 : String) (store : List Order)
    (doc : Order) (hnum : doc.orderNumber = "") :
    ∀ p, orderCreate g1 g2 store doc ≠ .ok p := by
  intro p hok
  have hv : validOrder doc = false := by simp [validOrder, hnum]
  unfold orderCreate at hok
  rw [hv] at hok
  simp at hok

/-- C2 (code bug): the claimed server-side pricing of a created order is never
exercised, because order creation cannot persist at all. `orderNumber` is
`required: true` but is generated only in the user pre-save hook, and Mongoose
validates BEFORE user pre-save hooks, so every `Order.create` call from
`createOrder` (which never supplies `orderNumber`) throws the required-path
ValidationError into the catch-all: the `.created` outcome of the claim is
unreachable — every request past the payment check answers 500 with the store
unchanged. -/
theorem createOrderAlwaysFails (env : CreateEnv) (catalog : List Drink)
    (store : List Order) (req : CreateOrderReq) (o : Order) (store₂ : List Order) :
    createOrder env catalog store req ≠ (.created o, store₂) := by
  intro h
  unfold createOrder at h
  cases hres : resolveItems catalog req.items with
  | error missing => rw [hres] at h; simp at h
  | ok pr =>
    obtain ⟨snaps, total⟩ := pr
    rw [hres] at h
    simp only at h
    split at h
    · simp at h
    · split at h
      · rename_i e heq
        simp at h
      · rename_i saved store' heq
        exact orderCreate_fails_on_blank_number env.genOrd env.genRec store _ rfl
          (saved, store') heq

/-- C2 (code bug) witness: the concrete valid request `reqA` (2 × Beer at 800,
paid 1600) does not create `cA` (nor anything else): it answers 500 and the
empty store stays empty. -/
theorem createOrderAlwaysFails_witness :
    createOrder envA [drinkBeer] [] reqA ≠ (.created cA, [cA])
    ∧ createOrder envA [drinkBeer] [] reqA = (.serverError, []) :=
  ⟨createOrderAlwaysFails envA [drinkBeer] [] reqA cA [cA], by decide⟩

/-- C3: when the resolved cart total (after discount/tax) exceeds
`amountPaid`, `createOrder` answers `InsufficientPayment` with HTTP 400, its
message reports both the required and the paid amount, and the store is
returned unchanged — no order is persisted. -/
theorem insufficientPaymentRejected (env : CreateEnv) (catalog : List Drink)
    (store : List Order) (req : CreateOrderReq) (snaps : List OrderItem)
    (total : Int)
    (hres : resolveItems catalog req.items = .ok (snaps, total))
    (hpay : req.amountPaid < total - req.discount.getD 0 + req.tax.getD 0) :
    createOrder env catalog store req
      = (.insufficientPayment (total - req.discount.getD 0 + req.tax.getD 0)
          req.amountPaid, store)
    ∧ (CreateOrderResult.insufficientPayment
        (total - req.discount.getD 0 + req.tax.getD 0) req.amountPaid).httpStatus
        = 400
    ∧ insufficientPaymentMessage (total - req.discount.getD 0 + req.tax.getD 0)
        req.amountPaid
        = "Insufficient payment. Required: "
          ++ toString (total - req.discount.getD 0 + req.tax.getD 0)
          ++ ", Paid: " ++ toString req.amountPaid := by
  refine ⟨?_, rfl, rfl⟩
  unfold createOrder
  rw [hres]
  simp [hpay]

/-- C3 witness: the same cart paid 1000 (required 1600) is rejected with
`InsufficientPayment 1600 1000` and the (empty) store stays empty. -/
theorem insufficientPaymentRejected_witness :
    createOrder envA [drinkBeer] [] reqUnderpay
      = (.insufficientPayment (1600 - reqUnderpay.discount.getD 0
          + reqUnderpay.tax.getD 0) reqUnderpay.amountPaid, [])
    ∧ (CreateOrderResult.insufficientPayment
        (1600 - reqUnderpay.discount.getD 0 + reqUnderpay.tax.getD 0)
        reqUnderpay.amountPaid).httpStatus = 400
    ∧ insufficientPaymentMessage
        (1600 - reqUnderpay.discount.getD 0 + reqUnderpay.tax.getD 0)
        reqUnderpay.amountPaid
        = "Insufficient payment. Required: "
          ++ toString (1600 - reqUnderpay.discount.getD 0 + reqUnderpay.tax.getD 0)
          ++ ", Paid: " ++ toString reqUnderpay.amountPaid :=
  insufficientPaymentRejected envA [drinkBeer] [] reqUnderpay
    [{ drink := 5, drinkName := "Beer", quantity := 2,
       pricePerUnit := 800, totalPrice := 1600 }] 1600 rfl (by decide)

/-- C4 counterexample: the bulk-sync update path persists the client's
`totalAmount`/`balance` untouched. Record `rForge` (totalAmount 999,
balance 777, no items) against `oA` (items summing to 1600, amountPaid 1600):
the stored order keeps the forged totals, which match neither
`Σ line totals − discount + tax` nor `amountPaid − totalAmount`. -/
theorem clientTotalsPersistedRaw :
    (processSyncRecord 300 1 "G1" "G2" 9 [oA] rForge).fst
      = .updatedRec (some "L1") 1
    ∧ ∃ u, (processSyncRecord 300 1 "G1" "G2" 9 [oA] rForge).snd = [u]
        ∧ u.totalAmount = 999
        ∧ u.balance = 777
        ∧ sumLineTotals u.items - u.discount + u.tax = 1600
        ∧ u.totalAmount ≠ sumLineTotals u.items - u.discount + u.tax
        ∧ u.balance ≠ u.amountPaid - u.totalAmount :=
  ⟨by decide, syncUpdateApply 300 1 rForge oA,
    by decide, by decide, by decide, by decide, by decide, by decide⟩

/-- C4 (amended): totals are recomputed only on save-path persists — the
pre-save hook recomputes `subtotal` and `balance` on every save — while the
`findByIdAndUpdate` persists of the bulk-sync update path and of `use_client`
conflict resolution bypass the hook and store the client-supplied
`totalAmount` and `balance` unchanged; the sync-create path likewise stores
the client's `totalAmount` (recomputing only `subtotal`/`balance`). -/
theorem totalsRecomputedOnlyOnSavePath (g1 g2 : String) (o : Order) (now : Int)
    (uid : Nat) (r : SyncRecord) (ta b : Int) :
    ((preSaveHook g1 g2 o).subtotal = (o.items.map (fun i => i.totalPrice)).sum
      ∧ (preSaveHook g1 g2 o).balance
          = o.amountPaid - ((o.items.map (fun i => i.totalPrice)).sum - o.discount + o.tax))
    ∧ (r.totalAmount = some ta → (syncUpdateApply now uid r o).totalAmount = ta)
    ∧ (r.balance = some b → (syncUpdateApply now uid r o).balance = b)
    ∧ (∀ fid store u store₂ ap, r.totalAmount = some ta → r.amountPaid = some ap →
        syncCreate now uid g1 g2 fid store r = .ok (u, store₂) → u.totalAmount = ta)
    ∧ (∀ store res o₂, store.find? (fun x => x.id = res.orderId && x.user = uid) = some o₂ →
        res.resolution = "use_client" → res.data.totalAmount = some ta →
        res.data.balance = some b →
        ∃ u, (resolveOne now uid store res).snd = replaceById store res.orderId u
          ∧ u.totalAmount = ta ∧ u.balance = b) := by
  refine ⟨⟨(preSaveHook_spec g1 g2 o).2.2.2.2.2.2.1,
    (preSaveHook_spec g1 g2 o).2.2.2.2.2.2.2.1⟩, ?_, ?_, ?_, ?_⟩
  · intro h; simp [syncUpdateApply, applyClientFields, h]
  · intro h; simp [syncUpdateApply, applyClientFields, h]
  · intro fid store u store₂ ap hta hap hok
    cases hb : r.balance with
    | none =>
      simp only [syncCreate, hta, hap, hb] at hok
      cases hok
    | some b2 =>
      simp only [syncCreate, hta, hap, hb] at hok
      obtain ⟨hu, _⟩ := orderCreate_ok _ _ _ _ _ _ hok
      subst hu
      simp [preSaveHook_spec]
  · intro store res o₂ hfind hres hta hb
    refine ⟨{ applyClientFields res.data o₂ with
        syncStatus := "synced", lastSynced := some now, updatedAt := now }, ?_, ?_, ?_⟩
    · simp [resolveOne, hfind, hres]
    · simp [applyClientFields, hta]
    · simp [applyClientFields, hb]

/-- C4 (amended) witness: concrete instantiation at `oA`, record `rDupEq`
(totalAmount 1600, balance 0) and resolution `resDup`. -/
theorem totalsRecomputedOnlyOnSavePath_witness :
    ((preSaveHook "G1" "G2" oA).subtotal = (oA.items.map (fun i => i.totalPrice)).sum
      ∧ (preSaveHook "G1" "G2" oA).balance
          = oA.amountPaid - ((oA.items.map (fun i => i.totalPrice)).sum
              - oA.discount + oA.tax))
    ∧ (syncUpdateApply 300 1 rDupEq oA).totalAmount = 1600
    ∧ (syncUpdateApply 300 1 rDupEq oA).balance = 0
    ∧ cDup.totalAmount = 1600
    ∧ ∃ u, (resolveOne 300 1 [oA] resDup).snd = replaceById [oA] resDup.orderId u
        ∧ u.totalAmount = 1600 ∧ u.balance = 0 := by
  have h := totalsRecomputedOnlyOnSavePath "G1" "G2" oA 300 1 rDupEq 1600 0
  exact ⟨h.1, h.2.1 rfl, h.2.2.1 rfl,
    h.2.2.2.1 9 [] cDup [cDup] 1600 rfl rfl (by rfl),
    h.2.2.2.2 [oA] resDup oA (by rfl) rfl rfl rfl⟩

/-- C6 counterexample: resubmitting `oA`'s own content. With a strictly older
`updatedAt` (99 < 100) the outcome is CONFLICT, not UPDATED; with an equal
`updatedAt` (100) the outcome is UPDATED but the stored order's `lastSynced`
(and `updatedAt`) are re-stamped — an observable field change, so the claimed
"UPDATED with no observable field change for any equal-or-older updatedAt"
fails on both counts. -/
theorem resubmitNotObservablyIdempotent :
    ((processSyncRecord 300 1 "G1" "G2" 9 [oA] rDupOld).fst
        = .conflictRec (some "L1") 1 oA)
    ∧ ((processSyncRecord 300 1 "G1" "G2" 9 [oA] rDupEq).fst
        = .updatedRec (some "L1") 1
      ∧ ∃ u, (processSyncRecord 300 1 "G1" "G2" 9 [oA] rDupEq).snd = [u]
          ∧ u.lastSynced = some 300
          ∧ oA.lastSynced = some 50
          ∧ u.lastSynced ≠ oA.lastSynced
          ∧ u.updatedAt ≠ oA.updatedAt) :=
  ⟨by decide, by decide, syncUpdateApply 300 1 rDupEq oA,
    by decide, by decide, by decide, by decide, by decide⟩

/-- C6 (amended): resubmitting an already-synced record with identical
content (every key present in the record equals the stored field) by its
owner yields UPDATED only when its `updatedAt` equals the server's, and then
the only observable changes are the re-stamped `lastSynced` and `updatedAt`;
with a strictly older `updatedAt` it yields CONFLICT and the store is
unchanged. -/
theorem resubmitIdempotentUpToStamps (now : Int) (uid : Nat) (g1 g2 : String)
    (fid : Nat) (store : List Order) (r : SyncRecord) (existing : Order) (t : Int)
    (hfind : store.find? (matchesRecord r) = some existing)
    (happly : applyClientFields r existing = existing)
    (huid : uid = existing.user)
    (hsync : existing.syncStatus = "synced")
    (ht : r.updatedAt = some t) :
    (t = existing.updatedAt →
      processSyncRecord now uid g1 g2 fid store r
        = (.updatedRec r.localId existing.id,
           replaceById store existing.id
             { existing with lastSynced := some now, updatedAt := now }))
    ∧ (t < existing.updatedAt →
        processSyncRecord now uid g1 g2 fid store r
          = (.conflictRec r.localId existing.id existing, store)) := by
  constructor
  · intro heq
    have hgt : jsDateGt existing.updatedAt r.updatedAt = false := by
      simp [jsDateGt, ht, heq]
    have hupd : syncUpdateApply now uid r existing
        = { existing with lastSynced := some now, updatedAt := now } := by
      simp [syncUpdateApply, happly, huid, hsync]
    simp [processSyncRecord, hfind, hgt, hupd]
  · intro hlt
    simp [processSyncRecord, hfind, jsDateGt, ht, hlt]

/-- C6 (amended) witness: `rDupEq` (content of `oA`, `updatedAt` 100 equal to
the server's) from the owner (user 1). -/
theorem resubmitIdempotentUpToStamps_witness :
    (100 = oA.updatedAt →
      processSyncRecord 300 1 "G1" "G2" 9 [oA] rDupEq
        = (.updatedRec (some "L1") oA.id,
           replaceById [oA] oA.id
             { oA with lastSynced := some 300, updatedAt := 300 }))
    ∧ (100 < oA.updatedAt →
        processSyncRecord 300 1 "G1" "G2" 9 [oA] rDupEq
          = (.conflictRec (some "L1") oA.id oA, [oA])) :=
  resubmitIdempotentUpToStamps 300 1 "G1" "G2" 9 [oA] rDupEq oA 100
    (by decide) (by decide) (by decide) (by decide) rfl

/-- C7 counterexample: the bulk-sync update path skips the ownership check.
`oA` is owned by user 1; caller user 2 with role "Staff" submits `rTakeover`
(matching `oA` by orderNumber, newer `updatedAt`): the outcome is UPDATED —
not Forbidden — and the stored order is rewritten with `user = 2`. -/
theorem syncBypassesOwnership :
    oA.user = 1
    ∧ (processSyncRecord 300 2 "G1" "G2" 9 [oA] rTakeover).fst
        = .updatedRec none 1
    ∧ ∃ u, (processSyncRecord 300 2 "G1" "G2" 9 [oA] rTakeover).snd = [u]
        ∧ u.user = 2 :=
  ⟨by decide, by decide, syncUpdateApply 300 2 rTakeover oA, by decide, by decide⟩

/-- C7 (amended): `getOrderById` and `updateOrder` enforce the
owner-or-Administrator rule — any other caller gets Forbidden (403) and the
store is untouched — but the bulk-sync update path enforces no ownership
check at all: a matching, non-conflicting record from any authenticated
caller (any id, any role) overwrites the order and reassigns its owner to the
caller. -/
theorem ownershipEnforcementBoundary (store : List Order) (uid : Nat)
    (role : String) (oid : Nat) (o : Order) (now : Int) (g1 g2 : String)
    (fid : Nat) (r : SyncRecord) (existing : Order) (p : OrderPatch) :
    (store.find? (fun x => x.id = oid) = some o → o.user ≠ uid →
      role ≠ "Administrator" → getOrderById store uid role oid = .forbidden)
    ∧ (store.find? (fun x => x.id = oid) = some o → o.user ≠ uid →
        role ≠ "Administrator" →
        updateOrder now store uid role oid p = (.forbidden, store))
    ∧ (store.find? (matchesRecord r) = some existing →
        jsDateGt existing.updatedAt r.updatedAt = false →
        (processSyncRecord now uid g1 g2 fid store r).fst
          = .updatedRec r.localId existing.id
        ∧ ∃ u, (processSyncRecord now uid g1 g2 fid store r).snd
            = replaceById store existing.id u ∧ u.user = uid) := by
  refine ⟨?_, ?_, ?_⟩
  · intro hfind huser hrole
    simp [getOrderById, hfind, huser, hrole]
  · intro hfind huser hrole
    simp [updateOrder, hfind, huser, hrole]
  · intro hfind hgt
    refine ⟨?_, syncUpdateApply now uid r existing, ?_, ?_⟩ <;>
      simp [processSyncRecord, hfind, hgt, syncUpdateApply]

/-- C7 (amended) witness: caller 2/"Staff" against `oA` (owner 1): Forbidden
on read and update, but UPDATED with owner reassignment through bulk sync. -/
theorem ownershipEnforcementBoundary_witness :
    getOrderById [oA] 2 "Staff" 1 = .forbidden
    ∧ updateOrder 300 [oA] 2 "Staff" 1 pFull = (.forbidden, [oA])
    ∧ ((processSyncRecord 300 2 "G1" "G2" 9 [oA] rTakeover).fst
        = .updatedRec none oA.id
      ∧ ∃ u, (processSyncRecord 300 2 "G1" "G2" 9 [oA] rTakeover).snd
          = replaceById [oA] oA.id u ∧ u.user = 2) := by
  have h := ownershipEnforcementBoundary [oA] 2 "Staff" 1 oA 300 "G1" "G2" 9
    rTakeover oA pFull
  exact ⟨h.1 (by decide) (by decide) (by decide),
    h.2.1 (by decide) (by decide) (by decide),
    h.2.2 (by decide) (by decide)⟩

/-- C8: `updateOrder` moves only the allowlisted `status`/`notes`/
`receiptPrinted` from the patch (plus the automatic Mongoose `updatedAt`
stamp); every other field of the stored order — items, totals, amountPaid,
order/receipt numbers, owner, sync metadata, customer fields, createdAt — is
unchanged, and the whole operation is insensitive to everything else the
patch carries. -/
theorem updateOrderAllowlistFrame (now : Int) (store : List Order) (uid : Nat)
    (role : String) (oid : Nat) (p : OrderPatch) (o o' : Order)
    (store₂ : List Order)
    (hfind : store.find? (fun x => x.id = oid) = some o)
    (h : updateOrder now store uid role oid p = (.ok o', store₂)) :
    (o'.status = p.status.getD o.status
      ∧ o'.notes = p.notes.getD o.notes
      ∧ o'.receiptPrinted = p.receiptPrinted.getD o.receiptPrinted
      ∧ o'.updatedAt = now)
    ∧ (o'.items = o.items ∧ o'.totalAmount = o.totalAmount
      ∧ o'.subtotal = o.subtotal ∧ o'.discount = o.discount ∧ o'.tax = o.tax
      ∧ o'.amountPaid = o.amountPaid ∧ o'.balance = o.balance
      ∧ o'.orderNumber = o.orderNumber ∧ o'.receiptNumber = o.receiptNumber
      ∧ o'.user = o.user ∧ o'.localId = o.localId
      ∧ o'.lastSynced = o.lastSynced ∧ o'.syncStatus = o.syncStatus
      ∧ o'.customerName = o.customerName ∧ o'.customerEmail = o.customerEmail
      ∧ o'.paymentMethod = o.paymentMethod ∧ o'.emailSent = o.emailSent
      ∧ o'.createdAt = o.createdAt ∧ o'.id = o.id)
    ∧ store₂ = replaceById store oid o'
    ∧ (∀ q : OrderPatch, q.status = p.status → q.notes = p.notes →
        q.receiptPrinted = p.receiptPrinted →
        updateOrder now store uid role oid q
          = updateOrder now store uid role oid p) := by
  have hindep : ∀ q : OrderPatch, q.status = p.status → q.notes = p.notes →
      q.receiptPrinted = p.receiptPrinted →
      updateOrder now store uid role oid q
        = updateOrder now store uid role oid p := by
    intro q h1 h2 h3
    cases p; cases q
    simp only at h1 h2 h3
    subst h1; subst h2; subst h3
    rfl
  unfold updateOrder at h
  rw [hfind] at h
  split at h
  · simp at h
  · rename_i o2 heq
    injection heq with heq
    subst heq
    split at h
    · simp at h
    · split at h
      · simp only [Prod.mk.injEq, UpdateOrderResult.ok.injEq] at h
        obtain ⟨h1, h2⟩ := h
        subst h1
        refine ⟨⟨rfl, rfl, rfl, rfl⟩, ?_, h2.symm, hindep⟩
        exact ⟨rfl, rfl, rfl, rfl, rfl, rfl, rfl, rfl, rfl, rfl, rfl, rfl, rfl,
          rfl, rfl, rfl, rfl, rfl, rfl⟩
      · simp at h

/-- C8 witness: the all-fields patch `pFull` against `oA` by its owner:
only status/notes/receiptPrinted (and the `updatedAt` stamp) change. -/
theorem updateOrderAllowlistFrame_witness :
    (uA.status = pFull.status.getD oA.status
      ∧ uA.notes = pFull.notes.getD oA.notes
      ∧ uA.receiptPrinted = pFull.receiptPrinted.getD oA.receiptPrinted
      ∧ uA.updatedAt = 500)
    ∧ (uA.items = oA.items ∧ uA.totalAmount = oA.totalAmount
      ∧ uA.subtotal = oA.subtotal ∧ uA.discount = oA.discount ∧ uA.tax = oA.tax
      ∧ uA.amountPaid = oA.amountPaid ∧ uA.balance = oA.balance
      ∧ uA.orderNumber = oA.orderNumber ∧ uA.receiptNumber = oA.receiptNumber
      ∧ uA.user = oA.user ∧ uA.localId = oA.localId
      ∧ uA.lastSynced = oA.lastSynced ∧ uA.syncStatus = oA.syncStatus
      ∧ uA.customerName = oA.customerName ∧ uA.customerEmail = oA.customerEmail
      ∧ uA.paymentMethod = oA.paymentMethod ∧ uA.emailSent = oA.emailSent
      ∧ uA.createdAt = oA.createdAt ∧ uA.id = oA.id)
    ∧ [uA] = replaceById [oA] 1 uA
    ∧ (∀ q : OrderPatch, q.status = pFull.status → q.notes = pFull.notes →
        q.receiptPrinted = pFull.receiptPrinted →
        updateOrder 500 [oA] 1 "Staff" 1 q
          = updateOrder 500 [oA] 1 "Staff" 1 pFull) :=
  updateOrderAllowlistFrame 500 [oA] 1 "Staff" 1 pFull oA uA [uA]
    (by decide) (by decide)

/-- C9 counterexample: the store already holds `oB` with order number
`ORD-20251012-4242` and the fresh generation for `reqA` would draw the same
number, yet no regeneration or retry happens: the request fails as a 500 with
the store unchanged — and the identical failure occurs with no collision at
all (empty store), because required-validation of `orderNumber` aborts every
persist before the store's uniqueness check could even fire, so the claimed
tolerate-and-regenerate behavior exists nowhere in the code. -/
theorem orderNumberCollisionNotRetried :
    createOrder envA [drinkBeer] [oB] reqA = (.serverError, [oB])
    ∧ createOrder envA [drinkBeer] [] reqA = (.serverError, [])
    ∧ CreateOrderResult.serverError.httpStatus = 500 :=
  ⟨by decide, by decide, rfl⟩

/-- C9 (amended): the assembler has no collision tolerance at all — there is
no retry or regeneration logic anywhere. In the code as written every
`createOrder` persist attempt (collision or not) fails before the store's
uniqueness check: `orderNumber` is required but generated only in the
post-validation pre-save hook, so validation throws first, the catch-all
answers 500 `serverError`, and the store is unchanged (no order persisted). -/
theorem orderCreationFailsBeforeInsert (env : CreateEnv) (catalog : List Drink)
    (store : List Order) (req : CreateOrderReq) (snaps : List OrderItem)
    (total : Int)
    (hres : resolveItems catalog req.items = .ok (snaps, total))
    (hpay : ¬ req.amountPaid < total - req.discount.getD 0 + req.tax.getD 0) :
    createOrder env catalog store req = (.serverError, store)
    ∧ CreateOrderResult.serverError.httpStatus = 500 := by
  refine ⟨?_, rfl⟩
  unfold createOrder
  rw [hres]
  simp only [hpay, if_false]
  split
  · rfl
  · rename_i saved store' heq
    exact absurd heq (orderCreate_fails_on_blank_number env.genOrd env.genRec store _
      rfl (saved, store'))

/-- C9 (amended) witness: the concrete request `reqA` against the store
holding `oB` (whose number equals `envA.genOrd`): 500, store unchanged. -/
theorem orderCreationFailsBeforeInsert_witness :
    createOrder envA [drinkBeer] [oB] reqA = (.serverError, [oB])
    ∧ CreateOrderResult.serverError.httpStatus = 500 :=
  orderCreationFailsBeforeInsert envA [drinkBeer] [oB] reqA
    [{ drink := 5, drinkName := "Beer", quantity := 2,
       pricePerUnit := 800, totalPrice := 1600 }] 1600 rfl (by decide)
